import Mathlib

/-!
# Verification of the SDGFT/GTT numerical core

Shallow embedding of the C sources (`gtt_geometry.c`, `gtt_background.c`,
`fractal_rg.c`) over the real numbers.  C `double` arithmetic is modelled by
`ℝ`; C functions returning an error code together with an out-parameter are
modelled by `Option ℝ` (`none` = failure code, `some` = success with value).
Division is Lean's total real division (`x / 0 = 0`); wherever a claim turns
on a division by zero this is pointed out at the theorem.
-/

open Real

namespace GTT

noncomputable section

/-- Physical constants fixed in the C sources. -/
def G_Newton : ℝ := 6.67430e-11

def M_PLANCK : ℝ := 1.220910e19

def Lambda_obs : ℝ := 1.1056e-52

/-- `gtt_params` from `gtt_geometry.h`. -/
structure gtt_params where
  theta_max : ℝ
  D_asymptotic : ℝ
  xi_G : ℝ
  beta : ℝ
  alpha : ℝ
  chi : ℝ
  chi_P : ℝ
  beta_iso : ℝ

/-- `gtt_params_init` from `gtt_geometry.c`.  The C function never writes the
`chi` field (it keeps whatever the caller's memory held); the parameter `chi0`
models that arbitrary residual value.  No function of the sources reads it. -/
def gtt_params_init (chi0 : ℝ) : gtt_params where
  theta_max := 30.0
  D_asymptotic := 2.7916667
  xi_G := 0.004
  beta := 0.1
  alpha := 1.0
  chi := chi0
  chi_P := Real.log (M_PLANCK / 1.0)
  beta_iso := 0.028

/-- `gtt_fractal_dimension` from `gtt_geometry.c`:
`D(χ) = D_∞ - (D_∞ - 2)·exp(-χ/χ_P)`. -/
def gtt_fractal_dimension (chi : ℝ) (p : gtt_params) : ℝ :=
  p.D_asymptotic - (p.D_asymptotic - 2.0) * Real.exp (-chi / p.chi_P)

/-- `gtt_G_of_chi` from `gtt_geometry.c`. -/
def gtt_G_of_chi (chi : ℝ) (p : gtt_params) : ℝ :=
  let D := gtt_fractal_dimension chi p
  let delta_G := (D - 3.0) * chi
  let G_chi := G_Newton * Real.exp delta_G
  let quantum_corr := 1.0 + (2.0 / (3.0 * π)) * G_chi
      + (p.beta / 24.0) * G_chi * G_chi
  G_chi * quantum_corr

/-- `gtt_Lambda_of_chi` from `gtt_geometry.c`. -/
def gtt_Lambda_of_chi (chi : ℝ) (p : gtt_params) : ℝ :=
  let D := gtt_fractal_dimension chi p
  let scale_factor := Real.exp (-(3.0 - D) * chi / 2.0)
  let vacuum_energy := p.xi_G * Real.exp (-chi / p.chi_P)
  Lambda_obs * scale_factor + vacuum_energy

/-- `gtt_cone_curvature` from `gtt_geometry.c`. -/
def gtt_cone_curvature (theta_max a : ℝ) : ℝ :=
  let theta_rad := theta_max * π / 180.0
  let deficit_angle := 2.0 * π * (1.0 - Real.sin theta_rad)
  let K_cone := deficit_angle / (a * a)
  6.0 * K_cone

/-- `gtt_Q_term` from `gtt_geometry.c`. -/
def gtt_Q_term (a D : ℝ) (p : gtt_params) : ℝ :=
  let R := 6.0 / (a * a)
  let chiral_term := p.xi_G * R * R
  let cone_term := (p.beta / (4.0 * π)) * (p.theta_max * π / 180.0) ^ 2 *
      gtt_cone_curvature p.theta_max a
  let unfold_term := p.alpha * (3.0 - D) / (a * a)
  chiral_term + cone_term + unfold_term

/-- `gtt_spectral_index` from `gtt_geometry.c`:
`n_s(k) = n_s0 - 0.014·(D(ln(k/0.05)) - D_∞)`. -/
def gtt_spectral_index (k n_s0 : ℝ) (p : gtt_params) : ℝ :=
  let chi_k := Real.log (k / 0.05)
  let D_k := gtt_fractal_dimension chi_k p
  n_s0 - 0.014 * (D_k - p.D_asymptotic)

/-- `gtt_baryon_asymmetry` from `gtt_geometry.c`. -/
def gtt_baryon_asymmetry (p : gtt_params) : ℝ :=
  let theta_rad := p.theta_max * π / 180.0
  let eta_B : ℝ := 6.1e-10
  let theory_factor := p.xi_G * Real.sin theta_rad * p.beta
  let normalization := eta_B / theory_factor
  theory_factor * normalization

/-! ## Background solver (`gtt_background.c`) -/

/-- `cosmology_params` from `gtt_background.c`. -/
structure cosmology_params where
  h : ℝ
  Omega_b : ℝ
  Omega_cdm : ℝ
  Omega_lambda : ℝ
  Omega_k : ℝ
  T_cmb : ℝ
  N_eff : ℝ

/-- `rho_total` from `gtt_background.c`.  C `pow` on a positive base is
modelled by `Real.rpow`. -/
def rho_total (a : ℝ) (cosmo : cosmology_params) (gtt : gtt_params) : ℝ :=
  let H0 := cosmo.h * 100.0 * 1000.0 / 3.08567758e22
  let rho_crit := 3.0 * H0 * H0 / (8.0 * π * G_Newton)
  let rho_m := (cosmo.Omega_b + cosmo.Omega_cdm) * rho_crit / (a * a * a)
  let Omega_r := 4.18e-5 / (cosmo.h * cosmo.h)
  let rho_r := Omega_r * rho_crit / (a * a * a * a)
  let chi := Real.log a
  let D := gtt_fractal_dimension chi gtt
  let fractal_corr := a ^ (-(D + 1.0)) / a ^ (-4.0 : ℝ)
  rho_m + rho_r * fractal_corr

/-- `gtt_friedmann_equation` from `gtt_background.c`.  The C function returns
`_FAILURE_` (without writing `*H`) or `_SUCCESS_` with `*H` set; this is
modelled by `Option ℝ` (`none` = failure). -/
def gtt_friedmann_equation (a : ℝ) (cosmo : cosmology_params)
    (gtt : gtt_params) : Option ℝ :=
  if a ≤ 0.0 then none
  else
    let chi := Real.log a
    let G_chi := gtt_G_of_chi chi gtt
    let Lambda_chi := gtt_Lambda_of_chi chi gtt
    let D := gtt_fractal_dimension chi gtt
    let rho := rho_total a cosmo gtt
    let K : ℝ := 0.0
    let Q := gtt_Q_term a D gtt
    let H_squared := (8.0 * π * G_chi / 3.0) * rho
        - K / (a * a)
        + Lambda_chi / 3.0
        + Q / 3.0
    if H_squared < 0.0 then none
    else some (Real.sqrt H_squared)

/-- The right-hand side `H² = (8πG(χ)/3)ρ + Λ(χ)/3 + Q/3` (with `χ = ln a`,
`K = 0`), written the way claim C1 words it, to be compared with the value
computed inside `gtt_friedmann_equation`. -/
def friedmann_H2_claim (a : ℝ) (cosmo : cosmology_params)
    (gtt : gtt_params) : ℝ :=
  let chi := Real.log a
  (8.0 * π * gtt_G_of_chi chi gtt / 3.0) * rho_total a cosmo gtt
    + gtt_Lambda_of_chi chi gtt / 3.0
    + gtt_Q_term a (gtt_fractal_dimension chi gtt) gtt / 3.0

/-- `gtt_hubble_at_z` from `gtt_background.c`: converts `z` to
`a = 1/(1+z)`, delegates to the Friedmann equation, and returns `-1.0` on
failure. -/
def gtt_hubble_at_z (z : ℝ) (cosmo : cosmology_params) (gtt : gtt_params) : ℝ :=
  match gtt_friedmann_equation (1.0 / (1.0 + z)) cosmo gtt with
  | none => -1.0
  | some H => H

/-- The integration loop of `gtt_distance_modulus` (`n_steps = 100`): after
`n` iterations, either the accumulated integral or `none` if some iteration
hit `H_z < 0` (the C code returns `-1.0` at that point). -/
def dm_loop (z : ℝ) (cosmo : cosmology_params) (gtt : gtt_params) :
    Nat → Option ℝ
  | 0 => some 0.0
  | n + 1 =>
    match dm_loop z cosmo gtt n with
    | none => none
    | some acc =>
      let dz := z / 100
      let z_i := ((n : ℝ) + 0.5) * dz
      let H_z := gtt_hubble_at_z z_i cosmo gtt
      if H_z < 0 then none else some (acc + dz / H_z)

/-- `gtt_distance_modulus` from `gtt_background.c`.  C `log10` is modelled by
`Real.logb 10`. -/
def gtt_distance_modulus (z : ℝ) (cosmo : cosmology_params)
    (gtt : gtt_params) : ℝ :=
  match dm_loop z cosmo gtt 100 with
  | none => -1.0
  | some integral =>
    let c : ℝ := 299792458.0
    let d_L := c * (1.0 + z) * integral
    let d_L_Mpc := d_L / 3.08567758e22
    5.0 * Real.logb 10 d_L_Mpc + 25.0

/-- The quadrature loop of `gtt_age_of_universe` (`n_steps = 1000`,
`da = 1/1000`): partial sum after the samples `a = 1·da, …, n·da`; a failing
Friedmann evaluation contributes nothing. -/
def gtt_age_loop (cosmo : cosmology_params) (gtt : gtt_params) : Nat → ℝ
  | 0 => 0.0
  | n + 1 =>
    gtt_age_loop cosmo gtt n +
      (let da : ℝ := 1.0 / 1000
       let a := ((n : ℝ) + 1) * da
       match gtt_friedmann_equation a cosmo gtt with
       | some H => da / (a * H)
       | none => 0.0)

/-- `gtt_age_of_universe` from `gtt_background.c`. -/
def gtt_age_of_universe (cosmo : cosmology_params) (gtt : gtt_params) : ℝ :=
  gtt_age_loop cosmo gtt 1000 / (365.25 * 24.0 * 3600.0)

/-! ## RG flow engine (`fractal_rg.c`) -/

/-- `rg_state` from `fractal_rg.h`. -/
structure rg_state where
  G : ℝ
  D : ℝ
  Lambda : ℝ
  g_gauge : Fin 3 → ℝ
  y_yukawa : Fin 3 → ℝ

/-- `rg_init_planck` from `fractal_rg.c`. -/
def rg_init_planck (_p : gtt_params) : rg_state where
  G := 1.0
  D := 2.0
  Lambda := 0.0
  g_gauge := ![0.7, 0.65, 0.35]
  y_yukawa := ![1.0, 0.02, 0.01]

/-- `beta_g3_SM` from `fractal_rg.c`. -/
def beta_g3_SM (g3 : ℝ) : ℝ := -7.0 * g3 ^ 3 / (16.0 * π * π)

/-- `beta_g2_SM` from `fractal_rg.c`. -/
def beta_g2_SM (g2 : ℝ) : ℝ := -19.0 / 6.0 * g2 ^ 3 / (16.0 * π * π)

/-- `beta_g1_SM` from `fractal_rg.c`. -/
def beta_g1_SM (g1 : ℝ) : ℝ := 41.0 / 10.0 * g1 ^ 3 / (16.0 * π * π)

/-- `rg_beta_G` from `fractal_rg.c`. -/
def rg_beta_G (s : rg_state) (p : gtt_params) : ℝ :=
  (s.D - 3.0) * s.G + (2.0 / (3.0 * π)) * s.G * s.G
    + (p.beta / 24.0) * s.G * s.G * s.G

/-- `rg_beta_D` from `fractal_rg.c`. -/
def rg_beta_D (s : rg_state) (chi : ℝ) (p : gtt_params) : ℝ :=
  -(3.0 - s.D) ^ 2 / (4.0 * π) + (1.0 / 24.0) * Real.exp (-chi / p.chi_P)

/-- `rg_beta_Lambda` from `fractal_rg.c`. -/
def rg_beta_Lambda (s : rg_state) (p : gtt_params) : ℝ :=
  -(3.0 - s.D) * s.Lambda + p.xi_G * s.G * s.G / (16.0 * π * π)

/-- `rg_beta_gauge` from `fractal_rg.c`. -/
def rg_beta_gauge (s : rg_state) (p : gtt_params) : Fin 3 → ℝ := fun i =>
  let g_i := s.g_gauge i
  let beta_SM :=
    if i = 0 then beta_g3_SM g_i else if i = 1 then beta_g2_SM g_i
    else beta_g1_SM g_i
  beta_SM + (s.D - 3.0) * g_i + (p.beta / (8.0 * π * π)) * g_i ^ 3

/-- `rk4_step` from `fractal_rg.c`.  The C code updates `G`, `D`, `Lambda`
and `g_gauge` in place; `y_yukawa` is copied along untouched (the `{s with}`
update). -/
def rk4_step (s : rg_state) (chi h : ℝ) (p : gtt_params) : rg_state :=
  let k1G := rg_beta_G s p
  let k1D := rg_beta_D s chi p
  let k1L := rg_beta_Lambda s p
  let k1g := rg_beta_gauge s p
  let t1 : rg_state := { s with
    G := s.G + 0.5 * h * k1G
    D := s.D + 0.5 * h * k1D
    Lambda := s.Lambda + 0.5 * h * k1L
    g_gauge := fun i => s.g_gauge i + 0.5 * h * k1g i }
  let k2G := rg_beta_G t1 p
  let k2D := rg_beta_D t1 (chi + 0.5 * h) p
  let k2L := rg_beta_Lambda t1 p
  let k2g := rg_beta_gauge t1 p
  let t2 : rg_state := { s with
    G := s.G + 0.5 * h * k2G
    D := s.D + 0.5 * h * k2D
    Lambda := s.Lambda + 0.5 * h * k2L
    g_gauge := fun i => s.g_gauge i + 0.5 * h * k2g i }
  let k3G := rg_beta_G t2 p
  let k3D := rg_beta_D t2 (chi + 0.5 * h) p
  let k3L := rg_beta_Lambda t2 p
  let k3g := rg_beta_gauge t2 p
  let t3 : rg_state := { s with
    G := s.G + h * k3G
    D := s.D + h * k3D
    Lambda := s.Lambda + h * k3L
    g_gauge := fun i => s.g_gauge i + h * k3g i }
  let k4G := rg_beta_G t3 p
  let k4D := rg_beta_D t3 (chi + h) p
  let k4L := rg_beta_Lambda t3 p
  let k4g := rg_beta_gauge t3 p
  { s with
    G := s.G + (h / 6.0) * (k1G + 2 * k2G + 2 * k3G + k4G)
    D := s.D + (h / 6.0) * (k1D + 2 * k2D + 2 * k3D + k4D)
    Lambda := s.Lambda + (h / 6.0) * (k1L + 2 * k2L + 2 * k3L + k4L)
    g_gauge := fun i =>
      s.g_gauge i + (h / 6.0) * (k1g i + 2 * k2g i + 2 * k3g i + k4g i) }

/-- `rg_integrate` from `fractal_rg.c`: `n_steps = 1000` fixed RK4 sub-steps
of size `h = (chi_end - chi_start)/1000`, taken in ascending order of the
loop index; the C return code is the first component (always `0`). -/
def rg_integrate (state_in : rg_state) (chi_start chi_end : ℝ)
    (p : gtt_params) : Int × rg_state :=
  let h := (chi_end - chi_start) / 1000
  let final := (List.range 1000).foldl
    (fun st (i : ℕ) => rk4_step st (chi_start + (i : ℝ) * h) h p) state_in
  (0, final)

/-- Reference recursion: the state after `n` RK4 sub-steps of `rg_integrate`
(step `n` uses `chi = chi_start + n·h`). -/
def rg_steps (s : rg_state) (chi_start h : ℝ) (p : gtt_params) :
    Nat → rg_state
  | 0 => s
  | n + 1 => rk4_step (rg_steps s chi_start h p n) (chi_start + (n : ℝ) * h) h p

/-- The loop of `rg_flow_full` over the checkpoints after the first:
threads the current state through `rg_integrate` between consecutive `chi`
values. -/
def rg_flow_aux (p : gtt_params) : rg_state → ℝ → List ℝ → List rg_state
  | _, _, [] => []
  | s, prev, c :: rest =>
    let s' := (rg_integrate s prev c p).2
    s' :: rg_flow_aux p s' c rest

/-- `rg_flow_full` from `fractal_rg.c`: element 0 is the Planck-scale initial
condition, element `i` the result of integrating from `chi_array[i-1]` to
`chi_array[i]`. -/
def rg_flow_full (chi_array : List ℝ) (p : gtt_params) : List rg_state :=
  match chi_array with
  | [] => []
  | c0 :: rest => rg_init_planck p :: rg_flow_aux p (rg_init_planck p) c0 rest

/-- The fields of `rg_state`/`chi_fixed` that `rg_find_fixed_points`
actually writes for a reported fixed point. -/
structure rg_fixed_point where
  chi : ℝ
  D : ℝ
  G : ℝ

/-- `rg_find_fixed_points` from `fractal_rg.c`: a single hard-coded
analytic-candidate check.  The C function returns the count `n_fixed` and
writes `n_fixed` entries; this is modelled by the list of written entries. -/
def rg_find_fixed_points (p : gtt_params) : List rg_fixed_point :=
  let D_fixed := 3.0 - Real.sqrt (π / 6.0)
  if |D_fixed - p.D_asymptotic| < 0.5 then
    [{ chi := p.chi_P / 2.0, D := D_fixed, G := 1.0 }]
  else []

end

/-! ## Helper lemmas -/

/-- The Friedmann evaluation, rewritten against the claim-side right-hand
side `friedmann_H2_claim` (the code's `- K/a²` term with `K = 0` vanishes). -/
lemma friedmann_eq_if (a : ℝ) (cosmo : cosmology_params) (gtt : gtt_params) :
    gtt_friedmann_equation a cosmo gtt =
      if a ≤ 0.0 ∨ friedmann_H2_claim a cosmo gtt < 0.0 then none
      else some (Real.sqrt (friedmann_H2_claim a cosmo gtt)) := by
  have hH2 : (8.0 * π * gtt_G_of_chi (Real.log a) gtt / 3.0) *
        rho_total a cosmo gtt - 0.0 / (a * a)
        + gtt_Lambda_of_chi (Real.log a) gtt / 3.0
        + gtt_Q_term a (gtt_fractal_dimension (Real.log a) gtt) gtt / 3.0
      = friedmann_H2_claim a cosmo gtt := by
    norm_num [friedmann_H2_claim]
  by_cases ha : a ≤ 0.0
  · simp [gtt_friedmann_equation, ha]
  · simp only [gtt_friedmann_equation, if_neg ha, hH2]
    by_cases hneg : friedmann_H2_claim a cosmo gtt < 0.0
    · simp [hneg, ha]
    · simp [hneg, ha]

/-- `D(0) = 2` holds for every parameter set (also when `chi_P = 0`,
because `-0/chi_P = 0`). -/
lemma fractal_dimension_zero (p : gtt_params) :
    gtt_fractal_dimension 0 p = 2 := by
  norm_num [gtt_fractal_dimension]

/-- Lower bound used for the fixed-point threshold:
`sqrt(π/6) ≥ 0.7083333`, hence `|(3 - sqrt(π/6)) - 2.7916667| ≥ 0.5`. -/
lemma fixed_point_gap :
    (0.5 : ℝ) ≤ |(3.0 - Real.sqrt (π / 6.0)) - 2.7916667| := by
  have hpi : (3.141592 : ℝ) < π := Real.pi_gt_d6
  have hsl : (0.7083333 : ℝ) ≤ Real.sqrt (π / 6.0) := by
    rw [show (0.7083333 : ℝ) = Real.sqrt (0.7083333 ^ 2) by
      rw [Real.sqrt_sq (by norm_num)]]
    apply Real.sqrt_le_sqrt
    nlinarith
  have hneg : (3.0 - Real.sqrt (π / 6.0)) - 2.7916667 ≤ 0 := by nlinarith
  rw [abs_of_nonpos hneg]
  nlinarith

/-! ## Claim theorems -/

/-- C1: for every scale factor `a` and every parameter set, the
Friedmann-equation evaluation fails (returns the failure code, `none`,
without producing a Hubble value) exactly when `a ≤ 0` or the right-hand
side `H² = (8πG(χ)/3)ρ + Λ(χ)/3 + Q/3` (with `χ = ln a`, `K = 0`) is
negative; in every other case it succeeds and returns `H = sqrt(H²)`.
Failure is an explicit `none`, never a numeric value. -/
theorem claim_C1_friedmann_failure :
    ∀ (a : ℝ) (cosmo : cosmology_params) (gtt : gtt_params),
      (gtt_friedmann_equation a cosmo gtt = none ↔
        a ≤ 0.0 ∨ friedmann_H2_claim a cosmo gtt < 0.0) ∧
      (gtt_friedmann_equation a cosmo gtt ≠ none →
        gtt_friedmann_equation a cosmo gtt =
          some (Real.sqrt (friedmann_H2_claim a cosmo gtt))) := by
  intro a cosmo gtt
  rw [friedmann_eq_if]
  by_cases h : a ≤ 0.0 ∨ friedmann_H2_claim a cosmo gtt < 0.0
  · simp [h]
  · simp [h]

/-- Witness for C1 at a concrete input: at `a = -1` the evaluation fails. -/
theorem claim_C1_witness :
    gtt_friedmann_equation (-1.0) (cosmology_params.mk 0.674 0.0493 0.264
      0.6847 0.0 2.7255 3.046) (gtt_params_init 0) = none := by
  exact (claim_C1_friedmann_failure (-1.0) _ _).1.mpr (Or.inl (by norm_num))

/-- C2: `rg_find_fixed_points` reports exactly one fixed point, at
`chi = chi_P/2` with `D = 3 - sqrt(π/6)` (and `G = 1`), when
`|3 - sqrt(π/6) - D_asymptotic| < 0.5`, and zero fixed points otherwise; in
particular with the default `D_asymptotic = 2.7916667` (where the gap is
about `0.509`) it reports zero fixed points. -/
theorem claim_C2_fixed_points :
    (∀ p : gtt_params, |(3.0 - Real.sqrt (π / 6.0)) - p.D_asymptotic| < 0.5 →
      rg_find_fixed_points p =
        [{ chi := p.chi_P / 2.0, D := 3.0 - Real.sqrt (π / 6.0), G := 1.0 }]) ∧
    (∀ p : gtt_params, 0.5 ≤ |(3.0 - Real.sqrt (π / 6.0)) - p.D_asymptotic| →
      rg_find_fixed_points p = []) ∧
    (∀ chi0 : ℝ, rg_find_fixed_points (gtt_params_init chi0) = []) := by
  refine ⟨fun p hp => ?_, fun p hp => ?_, fun chi0 => ?_⟩
  · simp [rg_find_fixed_points, hp]
  · simp [rg_find_fixed_points, not_lt.mpr hp]
  · have h : ¬ |(3.0 - Real.sqrt (π / 6.0)) -
        (gtt_params_init chi0).D_asymptotic| < 0.5 := by
      simp only [gtt_params_init]
      exact not_lt.mpr fixed_point_gap
    simp [rg_find_fixed_points, h]

/-- Witness for C2: a parameter set with `D_asymptotic = 2.3` is inside the
threshold and yields the single hard-coded fixed point, while the default
parameter set yields none. -/
theorem claim_C2_witness :
    rg_find_fixed_points (gtt_params.mk 30.0 2.3 0.004 0.1 1.0 0.0 1.0 0.028) =
      [{ chi := (1.0 : ℝ) / 2.0, D := 3.0 - Real.sqrt (π / 6.0), G := 1.0 }] ∧
    rg_find_fixed_points (gtt_params_init 0) = [] := by
  constructor
  · have hb : |(3.0 - Real.sqrt (π / 6.0)) -
        (gtt_params.mk 30.0 2.3 0.004 0.1 1.0 0.0 1.0 0.028).D_asymptotic|
        < 0.5 := by
      simp only []
      have hpi : (3.141592 : ℝ) < π := Real.pi_gt_d6
      have hpi' : π < 3.15 := by
        have := Real.pi_lt_d2
        linarith
      have h1 : Real.sqrt (π / 6.0) ≤ 0.73 := by
        rw [show (0.73 : ℝ) = Real.sqrt (0.73 ^ 2) by
          rw [Real.sqrt_sq (by norm_num)]]
        apply Real.sqrt_le_sqrt
        nlinarith
      have h2 : (0.7 : ℝ) ≤ Real.sqrt (π / 6.0) := by
        rw [show (0.7 : ℝ) = Real.sqrt (0.7 ^ 2) by
          rw [Real.sqrt_sq (by norm_num)]]
        apply Real.sqrt_le_sqrt
        nlinarith
      rw [abs_lt]
      constructor <;> nlinarith
    have := claim_C2_fixed_points.1 _ hb
    simpa using this
  · exact claim_C2_fixed_points.2.2 0

/-- C5 (code bug): `gtt_Q_term` performs no check at all on `a`; at `a = 0`
it evaluates its Ricci, cone-curvature and unfolding terms through a
division by zero and returns a plain number — there is no error path to
signal failure.  Under the embedding's total real division (`x/0 = 0`) the
returned value is `0`; under the C code's IEEE arithmetic the same control
flow silently returns an infinite value.  Either way, no error is
signalled, contradicting the claim. -/
theorem claim_C5_Q_term_total :
    ∀ (D : ℝ) (p : gtt_params), gtt_Q_term 0.0 D p = 0 := by
  intro D p
  norm_num [gtt_Q_term, gtt_cone_curvature]

/-- C9: whenever the theoretical factor `xi_G · sin(theta_max_rad) · beta`
is non-zero, `gtt_baryon_asymmetry` returns exactly `6.1e-10` (it multiplies
the factor by `6.1e-10` divided by that same factor). -/
theorem claim_C9_baryon_asymmetry (p : gtt_params)
    (hf : p.xi_G * Real.sin (p.theta_max * π / 180.0) * p.beta ≠ 0) :
    gtt_baryon_asymmetry p = 6.1e-10 := by
  show p.xi_G * Real.sin (p.theta_max * π / 180.0) * p.beta *
      (6.1e-10 / (p.xi_G * Real.sin (p.theta_max * π / 180.0) * p.beta))
    = 6.1e-10
  rw [mul_comm, div_mul_cancel₀ _ hf]

/-- Witness for C9: at the default parameters the factor is
`0.004 · sin(π/6) · 0.1 = 0.0002 ≠ 0`. -/
theorem claim_C9_witness :
    gtt_baryon_asymmetry (gtt_params_init 0) = 6.1e-10 := by
  apply claim_C9_baryon_asymmetry
  have h30 : (gtt_params_init 0).theta_max * π / 180.0 = π / 6 := by
    simp only [gtt_params_init]
    ring
  rw [h30, Real.sin_pi_div_six]
  norm_num [gtt_params_init]

/-- C10: at the pivot wavenumber `k = 0.05` the spectral index does not
reduce to its base value: `chi_k = ln(0.05/0.05) = 0` and `D(0) = 2`
exactly, so `n_s(0.05) = n_s0 - 0.014·(2 - D_asymptotic)` for every
parameter set; with the default `D_asymptotic = 2.7916667` this is
`n_s0 + 0.0110833338 ≠ n_s0`. -/
theorem claim_C10_spectral_index_pivot :
    (∀ (n_s0 : ℝ) (p : gtt_params),
      gtt_spectral_index 0.05 n_s0 p = n_s0 - 0.014 * (2 - p.D_asymptotic)) ∧
    (∀ (n_s0 chi0 : ℝ),
      gtt_spectral_index 0.05 n_s0 (gtt_params_init chi0)
          = n_s0 + 0.0110833338 ∧
      gtt_spectral_index 0.05 n_s0 (gtt_params_init chi0) ≠ n_s0) := by
  have key : ∀ (n_s0 : ℝ) (p : gtt_params),
      gtt_spectral_index 0.05 n_s0 p = n_s0 - 0.014 * (2 - p.D_asymptotic) := by
    intro n_s0 p
    have hlog : Real.log ((0.05 : ℝ) / 0.05) = 0 := by
      norm_num
    simp only [gtt_spectral_index, hlog, fractal_dimension_zero]
  refine ⟨key, fun n_s0 chi0 => ⟨?_, ?_⟩⟩
  · rw [key]
    simp only [gtt_params_init]
    norm_num
  · rw [key]
    simp only [gtt_params_init]
    norm_num

/-! ## RG-integrator structure (C3, C8) -/

/-- The fold of `rg_integrate` agrees with the step-indexed recursion
`rg_steps`. -/
lemma rg_integrate_foldl_eq_steps (s : rg_state) (chi_start h : ℝ)
    (p : gtt_params) : ∀ n : Nat,
    (List.range n).foldl
        (fun st (i : ℕ) => rk4_step st (chi_start + (i : ℝ) * h) h p) s
      = rg_steps s chi_start h p n := by
  intro n
  induction n with
  | zero => rfl
  | succ n ih =>
    rw [List.range_succ, List.foldl_append, ih]
    rfl

/-- C3: `rg_integrate` always returns the success code `0` — over the
real-number model every input is finite, so the claimed "error exactly on
non-finite inputs" condition is vacuous — and its output state is exactly
the result of 1000 fixed-size RK4 sub-steps of size
`h = (chi_end - chi_start)/1000`, step `n` taken at
`chi = chi_start + n·h`. -/
theorem claim_C3_rg_integrate_structure :
    ∀ (s : rg_state) (chi_start chi_end : ℝ) (p : gtt_params),
      (rg_integrate s chi_start chi_end p).1 = 0 ∧
      (rg_integrate s chi_start chi_end p).2 =
        rg_steps s chi_start ((chi_end - chi_start) / 1000) p 1000 ∧
      (∀ n : Nat,
        rg_steps s chi_start ((chi_end - chi_start) / 1000) p (n + 1) =
          rk4_step (rg_steps s chi_start ((chi_end - chi_start) / 1000) p n)
            (chi_start + (n : ℝ) * ((chi_end - chi_start) / 1000))
            ((chi_end - chi_start) / 1000) p) := by
  intro s chi_start chi_end p
  refine ⟨rfl, ?_, fun n => rfl⟩
  have hunf : (rg_integrate s chi_start chi_end p).2 =
      (List.range 1000).foldl
        (fun st (i : ℕ) =>
          rk4_step st (chi_start + (i : ℝ) * ((chi_end - chi_start) / 1000))
            ((chi_end - chi_start) / 1000) p) s := by
    simp only [rg_integrate]
  rw [hunf]
  exact rg_integrate_foldl_eq_steps s chi_start _ p 1000

/-- `rk4_step` never touches the Yukawa fields. -/
lemma rk4_step_y_yukawa (s : rg_state) (chi h : ℝ) (p : gtt_params) :
    (rk4_step s chi h p).y_yukawa = s.y_yukawa := rfl

/-- `rg_steps` never touches the Yukawa fields. -/
lemma rg_steps_y_yukawa (s : rg_state) (chi_start h : ℝ) (p : gtt_params) :
    ∀ n : Nat, (rg_steps s chi_start h p n).y_yukawa = s.y_yukawa := by
  intro n
  induction n with
  | zero => rfl
  | succ n ih => rw [rg_steps, rk4_step_y_yukawa, ih]

/-- `rg_integrate` never touches the Yukawa fields. -/
lemma rg_integrate_y_yukawa (s : rg_state) (chi_start chi_end : ℝ)
    (p : gtt_params) :
    ((rg_integrate s chi_start chi_end p).2).y_yukawa = s.y_yukawa := by
  have hunf : (rg_integrate s chi_start chi_end p).2 =
      (List.range 1000).foldl
        (fun st (i : ℕ) =>
          rk4_step st (chi_start + (i : ℝ) * ((chi_end - chi_start) / 1000))
            ((chi_end - chi_start) / 1000) p) s := by
    simp only [rg_integrate]
  rw [hunf, rg_integrate_foldl_eq_steps s chi_start
    ((chi_end - chi_start) / 1000) p 1000]
  exact rg_steps_y_yukawa s chi_start _ p 1000

/-- Every state produced by the `rg_flow_full` loop keeps the Yukawa fields
of the state it was threaded from. -/
lemma rg_flow_aux_y_yukawa (p : gtt_params) :
    ∀ (l : List ℝ) (s : rg_state) (c : ℝ) (st : rg_state),
      st ∈ rg_flow_aux p s c l → st.y_yukawa = s.y_yukawa := by
  intro l
  induction l with
  | nil => intro s c st h; cases h
  | cons c' rest ih =>
    intro s c st h
    rw [rg_flow_aux] at h
    rcases List.mem_cons.mp h with h | h
    · rw [h]
      exact rg_integrate_y_yukawa s c c' p
    · rw [ih _ _ _ h]
      exact rg_integrate_y_yukawa s c c' p

/-- C8: `rg_integrate` returns a state whose Yukawa couplings are identical
to the input's (no RK4 step or β-function updates them), and consequently
every state produced by `rg_flow_full` carries the Planck-scale initial
Yukawa values `[1.0, 0.02, 0.01]`. -/
theorem claim_C8_yukawa_inert :
    (∀ (s : rg_state) (chi_start chi_end : ℝ) (p : gtt_params),
      ((rg_integrate s chi_start chi_end p).2).y_yukawa = s.y_yukawa) ∧
    (∀ (chi_array : List ℝ) (p : gtt_params),
      ∀ st ∈ rg_flow_full chi_array p, st.y_yukawa = ![1.0, 0.02, 0.01]) := by
  refine ⟨rg_integrate_y_yukawa, fun chi_array p st hst => ?_⟩
  match chi_array, hst with
  | c0 :: rest, hst =>
    rcases List.mem_cons.mp hst with h | h
    · rw [h]; rfl
    · rw [rg_flow_aux_y_yukawa p rest _ c0 st h]; rfl

/-- Witness for C8 at concrete inputs: integrating the Planck state over
`[0, 1]` keeps its Yukawa fields, and the single state produced by
`rg_flow_full [5]` carries the initial Yukawa values. -/
theorem claim_C8_witness :
    ((rg_integrate (rg_init_planck (gtt_params_init 0)) 0.0 1.0
        (gtt_params_init 0)).2).y_yukawa
      = (rg_init_planck (gtt_params_init 0)).y_yukawa ∧
    (rg_init_planck (gtt_params_init 0)).y_yukawa = ![1.0, 0.02, 0.01] := by
  constructor
  · exact claim_C8_yukawa_inert.1 _ 0.0 1.0 _
  · exact claim_C8_yukawa_inert.2 [5.0] (gtt_params_init 0) _
      (by simp [rg_flow_full, rg_flow_aux])

/-! ## Age-of-universe quadrature (C6) -/

/-- The age loop is the partial sum over the samples `a = i/1000`,
`i = 1..n`, of `da/(a·H(a))` restricted to the samples where the Friedmann
evaluation succeeds (failing samples contribute nothing). -/
lemma gtt_age_loop_eq_sum (cosmo : cosmology_params) (gtt : gtt_params) :
    ∀ n : Nat, gtt_age_loop cosmo gtt n =
      ∑ i ∈ Finset.Icc 1 n,
        Option.elim (gtt_friedmann_equation ((i : ℝ) * (1.0 / 1000)) cosmo gtt)
          0.0 (fun H => (1.0 / 1000) / (((i : ℝ) * (1.0 / 1000)) * H)) := by
  intro n
  induction n with
  | zero => norm_num [gtt_age_loop]
  | succ n ih =>
    rw [gtt_age_loop, ih, Finset.sum_Icc_succ_top (Nat.le_add_left 1 n)]
    have hcast : ((n + 1 : ℕ) : ℝ) = (n : ℝ) + 1 := by push_cast; ring
    rw [hcast]
    congr 1
    cases h : gtt_friedmann_equation (((n : ℝ) + 1) * (1.0 / 1000)) cosmo gtt
      with
    | none => simp [h]
    | some H => simp [h]

/-- C6: `gtt_age_of_universe` equals the sum of `da/(a_i·H(a_i))` over the
1000 uniform samples `a_i = i·da` (`da = 1/1000`, `i = 1..1000`) restricted
to exactly those samples where the Friedmann evaluation succeeds — a failing
sample is silently omitted (contributes `0`) and never aborts the sum — the
result being divided by `365.25·24·3600` to convert seconds to years. -/
theorem claim_C6_age_quadrature :
    ∀ (cosmo : cosmology_params) (gtt : gtt_params),
      gtt_age_of_universe cosmo gtt =
        (∑ i ∈ Finset.Icc (1 : ℕ) 1000,
          Option.elim
            (gtt_friedmann_equation ((i : ℝ) * (1.0 / 1000)) cosmo gtt)
            0.0 (fun H => (1.0 / 1000) / (((i : ℝ) * (1.0 / 1000)) * H)))
        / (365.25 * 24.0 * 3600.0) := by
  intro cosmo gtt
  rw [gtt_age_of_universe, gtt_age_loop_eq_sum cosmo gtt 1000]

/-! ## Fractal-dimension monotonicity and limits (C7) -/

/-- `D(χ)` is strictly increasing when `chi_P > 0` and `D_asymptotic > 2`. -/
lemma fd_strictMono (p : gtt_params) (hP : 0 < p.chi_P)
    (hD : 2 < p.D_asymptotic) :
    StrictMono (fun chi => gtt_fractal_dimension chi p) := by
  intro x y hxy
  simp only [gtt_fractal_dimension]
  have hc : 0 < p.D_asymptotic - 2.0 := by norm_num; linarith
  have hne : -y < -x := by linarith
  have hdiv : -y / p.chi_P < -x / p.chi_P := by
    rw [div_eq_mul_inv, div_eq_mul_inv]
    exact mul_lt_mul_of_pos_right hne (inv_pos.mpr hP)
  have hexp : Real.exp (-y / p.chi_P) < Real.exp (-x / p.chi_P) :=
    Real.exp_lt_exp.mpr hdiv
  have := mul_lt_mul_of_pos_left hexp hc
  linarith

/-- `D(χ) → D_asymptotic` as `χ → +∞` when `chi_P > 0`. -/
lemma fd_tendsto_atTop (p : gtt_params) (hP : 0 < p.chi_P) :
    Filter.Tendsto (fun chi => gtt_fractal_dimension chi p) Filter.atTop
      (nhds p.D_asymptotic) := by
  have h1 : Filter.Tendsto (fun chi : ℝ => -chi / p.chi_P) Filter.atTop
      Filter.atBot := Filter.tendsto_neg_atTop_atBot.atBot_div_const hP
  have h2 : Filter.Tendsto (fun chi : ℝ => Real.exp (-chi / p.chi_P))
      Filter.atTop (nhds 0) := Real.tendsto_exp_atBot.comp h1
  have h3 := Filter.Tendsto.const_sub p.D_asymptotic
    (h2.const_mul (p.D_asymptotic - 2.0))
  simpa [gtt_fractal_dimension] using h3

/-- `D(χ) → -∞` as `χ → -∞` when `chi_P > 0` and `D_asymptotic > 2`. -/
lemma fd_tendsto_atBot (p : gtt_params) (hP : 0 < p.chi_P)
    (hD : 2 < p.D_asymptotic) :
    Filter.Tendsto (fun chi => gtt_fractal_dimension chi p) Filter.atBot
      Filter.atBot := by
  have h1 : Filter.Tendsto (fun chi : ℝ => -chi / p.chi_P) Filter.atBot
      Filter.atTop := Filter.tendsto_neg_atBot_atTop.atTop_div_const hP
  have h2 : Filter.Tendsto (fun chi : ℝ => Real.exp (-chi / p.chi_P))
      Filter.atBot Filter.atTop := Real.tendsto_exp_atTop.comp h1
  have h3 : Filter.Tendsto
      (fun chi : ℝ => (p.D_asymptotic - 2.0) * Real.exp (-chi / p.chi_P))
      Filter.atBot Filter.atTop :=
    Filter.Tendsto.const_mul_atTop (by norm_num; linarith) h2
  have h4 : Filter.Tendsto
      (fun chi : ℝ => -((p.D_asymptotic - 2.0) * Real.exp (-chi / p.chi_P)))
      Filter.atBot Filter.atBot := Filter.tendsto_neg_atTop_atBot.comp h3
  have h5 := Filter.tendsto_atBot_add_const_left _ p.D_asymptotic h4
  have heq : (fun chi => gtt_fractal_dimension chi p)
      = fun chi : ℝ => p.D_asymptotic
        + -((p.D_asymptotic - 2.0) * Real.exp (-chi / p.chi_P)) := by
    funext chi
    simp only [gtt_fractal_dimension]
    ring
  rw [heq]
  exact h5

/-- Parameter set used for the C7 counterexample and witness:
`chi_P = 1 > 0`, `D_asymptotic = 3 > 2`. -/
def pC7 : gtt_params where
  theta_max := 30.0
  D_asymptotic := 3.0
  xi_G := 0.004
  beta := 0.1
  alpha := 1.0
  chi := 0.0
  chi_P := 1.0
  beta_iso := 0.028

/-- C7 counterexample: with valid parameters (`chi_P = 1 > 0`,
`D_asymptotic = 3 > 2`) the fractal dimension at `chi = -1` is
`3 - e < 2`, and `D(χ)` does not tend to `2` as `χ → -∞` (it tends to
`-∞`): the claim's "increases from 2 in the limit χ → -∞" is false —
`D = 2` is attained at `χ = 0`, not approached at `-∞`. -/
theorem claim_C7_counterexample :
    (0 < pC7.chi_P ∧ 2 < pC7.D_asymptotic) ∧
    gtt_fractal_dimension (-1.0) pC7 < 2 ∧
    ¬ Filter.Tendsto (fun chi => gtt_fractal_dimension chi pC7)
        Filter.atBot (nhds 2) := by
  refine ⟨⟨by norm_num [pC7], by norm_num [pC7]⟩, ?_, ?_⟩
  · have he : (1 : ℝ) < Real.exp 1 := by
      have := Real.exp_one_gt_d9
      linarith
    have harg : -(-1.0) / (1.0 : ℝ) = 1 := by norm_num
    simp only [gtt_fractal_dimension, pC7, harg]
    nlinarith [he]
  · intro hcon
    have h1 : Filter.Tendsto (fun chi => gtt_fractal_dimension chi pC7)
        Filter.atBot Filter.atBot :=
      fd_tendsto_atBot pC7 (by norm_num [pC7]) (by norm_num [pC7])
    have h2 : ∀ᶠ chi in Filter.atBot, gtt_fractal_dimension chi pC7 < 1 :=
      h1.eventually (Filter.eventually_lt_atBot 1)
    have h3 : ∀ᶠ chi in Filter.atBot, (1 : ℝ) <
        gtt_fractal_dimension chi pC7 :=
      hcon.eventually (eventually_gt_nhds (by norm_num))
    obtain ⟨chi, hc1, hc2⟩ := (h2.and h3).exists
    linarith

/-- C7 (amended): for every parameter set with `chi_P > 0` and
`D_asymptotic > 2`, the fractal dimension is strictly increasing in `chi`,
tends to `D_asymptotic` as `chi → +∞`, equals `2` at `chi = 0`, and tends
to `-∞` (not `2`) as `chi → -∞`. -/
theorem claim_C7_amended :
    ∀ p : gtt_params, 0 < p.chi_P → 2 < p.D_asymptotic →
      StrictMono (fun chi => gtt_fractal_dimension chi p) ∧
      Filter.Tendsto (fun chi => gtt_fractal_dimension chi p) Filter.atTop
        (nhds p.D_asymptotic) ∧
      gtt_fractal_dimension 0 p = 2 ∧
      Filter.Tendsto (fun chi => gtt_fractal_dimension chi p) Filter.atBot
        Filter.atBot :=
  fun p hP hD => ⟨fd_strictMono p hP hD, fd_tendsto_atTop p hP,
    fractal_dimension_zero p, fd_tendsto_atBot p hP hD⟩

/-! ## Distance-modulus failure condition (C4)

The C code aborts the luminosity-distance integral only when a sampled
Hubble value is strictly negative (`if (H_z < 0) return -1.0;`); a sample
with `H = 0` exactly does not fail (the code divides by zero there).  The
parameter set below realises `H = 0` at the first midpoint sample of
`z = 1`, with no division by zero anywhere on the evaluated path up to that
integrand: `h = 1` and `Omega_b = Omega_cdm = 0` leave only the radiation
density `4.18e-5·ρ_crit/a³` (after the fractal correction `a^{-3}/a^{-4}`),
`D_asymptotic = 2` freezes the fractal dimension at `2`, `chi_P = 2` and
`xi_G = -Λ_obs` make `Λ(χ) ≡ 0`, `beta = 0` kills the cone term and the
cubic quantum correction, and `alpha = -3·gC4(201/200)` tunes the unfolding
term so that `H²(a) = x²·(gC4(x) - gC4(201/200))` for `x = 1/a`, with `gC4`
strictly increasing on positives: every sample `x_i = 1 + (i+0.5)/100`
satisfies `x_i ≥ 201/200`, with equality — hence `H² = 0` — exactly at the
first one. -/

/-- Cosmology parameters of the C4 counterexample (`h = 1`, no matter). -/
def cosmoC4 : cosmology_params where
  h := 1.0
  Omega_b := 0.0
  Omega_cdm := 0.0
  Omega_lambda := 0.7
  Omega_k := 0.0
  T_cmb := 2.7255
  N_eff := 3.046

/-- `H0` at `h = 1`, as computed by `rho_total`. -/
noncomputable def H0C4 : ℝ := 1.0 * 100.0 * 1000.0 / 3.08567758e22

/-- The polynomial `gC4(x)` with `H²(1/x) = x²·(gC4(x) - gC4(201/200))` on
the counterexample parameters: quadratic coefficient
`4.18e-5·H0² - 12·Λ_obs > 0`, cubic coefficient
`4.18e-5·H0²·(2G_N/(3π)) > 0`. -/
noncomputable def gC4 (x : ℝ) : ℝ :=
  (4.18e-5 * H0C4 ^ 2 - 12.0 * Lambda_obs) * x ^ 2
    + (4.18e-5 * H0C4 ^ 2 * (2.0 * G_Newton / (3.0 * π))) * x ^ 3

/-- The tuned unfolding parameter of the C4 counterexample. -/
noncomputable def alphaC4 : ℝ := -3.0 * gC4 (201 / 200)

/-- GTT parameters of the C4 counterexample. -/
noncomputable def gttC4 : gtt_params where
  theta_max := 30.0
  D_asymptotic := 2.0
  xi_G := -Lambda_obs
  beta := 0.0
  alpha := alphaC4
  chi := 0.0
  chi_P := 2.0
  beta_iso := 0.028

/-- With `D_asymptotic = 2` the fractal dimension is identically `2`. -/
lemma fdC4 (chi : ℝ) : gtt_fractal_dimension chi gttC4 = 2 := by
  norm_num [gtt_fractal_dimension, gttC4]

/-- With `chi_P = 2` and `xi_G = -Λ_obs` the two exponentials of
`gtt_Lambda_of_chi` coincide and cancel. -/
lemma LamC4 (chi : ℝ) : gtt_Lambda_of_chi chi gttC4 = 0 := by
  simp only [gtt_Lambda_of_chi]
  rw [fdC4]
  simp only [gttC4]
  rw [show -((3.0 : ℝ) - 2) * chi / 2.0 = -chi / 2.0 by ring]
  ring

/-- With `D = 2` the gravitational coupling at `χ = ln a` is
`G_N/a` times the (quadratic-free, since `beta = 0`) quantum correction. -/
lemma GC4 (a : ℝ) (ha : 0 < a) :
    gtt_G_of_chi (Real.log a) gttC4
      = G_Newton * (1 / a) * (1.0 + (2.0 / (3.0 * π)) * (G_Newton * (1 / a)))
      := by
  simp only [gtt_G_of_chi]
  rw [fdC4]
  simp only [gttC4]
  rw [show ((2 : ℝ) - 3.0) * Real.log a = -Real.log a by ring]
  rw [Real.exp_neg, Real.exp_log ha]
  ring

/-- With `h = 1` and no matter, only the corrected radiation term remains:
`ρ = 4.18e-5·ρ_crit/a³` (the fractal correction is `a^{-3}/a^{-4} = a`). -/
lemma rhoC4 (a : ℝ) (ha : 0 < a) :
    rho_total a cosmoC4 gttC4
      = 4.18e-5 * (3.0 * H0C4 * H0C4 / (8.0 * π * G_Newton)) / (a * a * a)
      := by
  simp only [rho_total, cosmoC4]
  rw [fdC4]
  have h34 : a ^ (-((2 : ℝ) + 1.0)) / a ^ (-4.0 : ℝ) = a := by
    rw [← Real.rpow_sub ha]
    norm_num
  rw [h34]
  simp only [H0C4]
  have ha' : a ≠ 0 := ne_of_gt ha
  have hπ : π ≠ 0 := Real.pi_ne_zero
  have hG : G_Newton ≠ 0 := by norm_num [G_Newton]
  field_simp
  ring

/-- Closed form of the C4 counterexample's Friedmann right-hand side. -/
lemma H2C4 (a : ℝ) (ha : 0 < a) :
    friedmann_H2_claim a cosmoC4 gttC4
      = (1 / (a * a)) * (gC4 (1 / a) - gC4 (201 / 200)) := by
  have hane : a ≠ 0 := ne_of_gt ha
  have hpi : π ≠ 0 := Real.pi_ne_zero
  have hG : G_Newton ≠ 0 := by norm_num [G_Newton]
  simp only [friedmann_H2_claim]
  rw [GC4 a ha, rhoC4 a ha, LamC4]
  rw [show gtt_Q_term a (gtt_fractal_dimension (Real.log a) gttC4) gttC4
      = gtt_Q_term a 2 gttC4 by rw [fdC4]]
  simp only [gtt_Q_term, gtt_cone_curvature, gttC4, alphaC4, gC4]
  field_simp
  ring

/-- `gC4` is monotone on the non-negative reals: both coefficients are
positive. -/
lemma gC4_mono {x y : ℝ} (hx : 0 ≤ x) (hxy : x ≤ y) : gC4 x ≤ gC4 y := by
  have hH : (0 : ℝ) < H0C4 := by norm_num [H0C4]
  have hGp : (0 : ℝ) < G_Newton := by norm_num [G_Newton]
  have hpi : (0 : ℝ) < π := Real.pi_pos
  have hc2 : (0 : ℝ) < 4.18e-5 * H0C4 ^ 2 - 12.0 * Lambda_obs := by
    norm_num [H0C4, Lambda_obs]
  have hc3 : (0 : ℝ) < 4.18e-5 * H0C4 ^ 2 * (2.0 * G_Newton / (3.0 * π)) := by
    positivity
  have h2 : x ^ 2 ≤ y ^ 2 := by nlinarith
  have h3 : x ^ 3 ≤ y ^ 3 := by nlinarith
  simp only [gC4]
  nlinarith

/-- For `z ≥ 1/200` the Friedmann evaluation at `a = 1/(1+z)` succeeds on
the counterexample parameters and the returned Hubble value is
non-negative. -/
lemma hubbleC4_nonneg (z : ℝ) (hz : 1 / 200 ≤ z) :
    0 ≤ gtt_hubble_at_z z cosmoC4 gttC4 := by
  have hu0 : (0 : ℝ) < 1.0 + z := by linarith
  have ha : (0 : ℝ) < 1.0 / (1.0 + z) := by positivity
  have hsq : (1.0 / (1.0 + z)) * (1.0 / (1.0 + z)) = 1 / ((1.0 + z) ^ 2) := by
    field_simp
    ring
  have hinv : 1 / ((1.0 / (1.0 + z)) * (1.0 / (1.0 + z))) = (1.0 + z) ^ 2 := by
    rw [hsq, one_div_one_div]
  have h1z : 1 / (1.0 / (1.0 + z)) = 1.0 + z := by
    rw [one_div, inv_div]
    norm_num
  have hx : (201 : ℝ) / 200 ≤ 1.0 + z := by linarith
  have hH2 : 0 ≤ friedmann_H2_claim (1.0 / (1.0 + z)) cosmoC4 gttC4 := by
    rw [H2C4 _ ha, hinv, h1z]
    have hmono := gC4_mono (x := 201 / 200) (by norm_num) hx
    exact mul_nonneg (sq_nonneg _) (sub_nonneg.mpr hmono)
  have hcond : ¬ ((1.0 : ℝ) / (1.0 + z) ≤ 0.0 ∨
      friedmann_H2_claim (1.0 / (1.0 + z)) cosmoC4 gttC4 < 0.0) := by
    push_neg
    exact ⟨by linarith, by linarith⟩
  have hfr : gtt_friedmann_equation (1.0 / (1.0 + z)) cosmoC4 gttC4
      = some (Real.sqrt (friedmann_H2_claim (1.0 / (1.0 + z)) cosmoC4 gttC4))
      := by
    rw [friedmann_eq_if, if_neg hcond]
  simp only [gtt_hubble_at_z, hfr]
  exact Real.sqrt_nonneg _

/-- Every midpoint sample of `z = 1` has a non-negative Hubble value. -/
lemma hubbleC4_sample (i : ℕ) :
    0 ≤ gtt_hubble_at_z (((i : ℝ) + 0.5) * (1.0 / 100)) cosmoC4 gttC4 := by
  apply hubbleC4_nonneg
  have : (0 : ℝ) ≤ (i : ℝ) := Nat.cast_nonneg i
  nlinarith

/-- The distance-modulus loop at `z = 1` never fails on the counterexample
parameters: every sampled Hubble value is `≥ 0`, so the `H < 0` check never
fires. -/
lemma dmC4_some : ∀ n : ℕ, (dm_loop 1.0 cosmoC4 gttC4 n).isSome := by
  intro n
  induction n with
  | zero => rfl
  | succ n ih =>
    obtain ⟨acc, hacc⟩ := Option.isSome_iff_exists.mp ih
    have hH : ¬ gtt_hubble_at_z (((n : ℝ) + 0.5) * (1.0 / 100))
        cosmoC4 gttC4 < 0 :=
      not_lt.mpr (hubbleC4_sample n)
    simp only [dm_loop, hacc, if_neg hH, Option.isSome_some]

/-- C4 counterexample: at `z = 1` with the parameters above, the first
midpoint sample `z_0 = (0 + 0.5)·(1/100)` has Hubble value exactly
`0 ≤ 0`, yet the distance-modulus integration does not fail (the code only
aborts on `H < 0`, dividing by zero at `H = 0`), refuting "fails whenever
some sample has `H(z_i) ≤ 0`". -/
theorem claim_C4_counterexample :
    gtt_hubble_at_z (((0 : ℝ) + 0.5) * (1.0 / 100)) cosmoC4 gttC4 ≤ 0 ∧
    dm_loop 1.0 cosmoC4 gttC4 100 ≠ none := by
  constructor
  · have ha : (0 : ℝ) < 1.0 / (1.0 + ((0 : ℝ) + 0.5) * (1.0 / 100)) := by
      norm_num
    have hH2 : friedmann_H2_claim
        (1.0 / (1.0 + ((0 : ℝ) + 0.5) * (1.0 / 100))) cosmoC4 gttC4 = 0 := by
      rw [H2C4 _ ha]
      rw [show (1 : ℝ) / (1.0 / (1.0 + ((0 : ℝ) + 0.5) * (1.0 / 100)))
          = 201 / 200 by norm_num]
      ring
    have hcond : ¬ ((1.0 : ℝ) / (1.0 + ((0 : ℝ) + 0.5) * (1.0 / 100)) ≤ 0.0 ∨
        friedmann_H2_claim (1.0 / (1.0 + ((0 : ℝ) + 0.5) * (1.0 / 100)))
          cosmoC4 gttC4 < 0.0) := by
      push_neg
      refine ⟨by norm_num, by rw [hH2]; norm_num⟩
    have hfr : gtt_friedmann_equation
        (1.0 / (1.0 + ((0 : ℝ) + 0.5) * (1.0 / 100))) cosmoC4 gttC4
        = some 0 := by
      rw [friedmann_eq_if, if_neg hcond, hH2, Real.sqrt_zero]
    simp only [gtt_hubble_at_z, hfr]
    norm_num
  · exact Option.isSome_iff_ne_none.mp (dmC4_some 100)


/-- Failure condition of the distance-modulus loop: it fails within the
first `n` iterations iff some sample `i < n` has a (strictly) negative
Hubble value. -/
lemma dm_loop_none_iff (z : ℝ) (cosmo : cosmology_params) (gtt : gtt_params) :
    ∀ n : ℕ, (dm_loop z cosmo gtt n = none ↔
      ∃ i : ℕ, i < n ∧
        gtt_hubble_at_z (((i : ℝ) + 0.5) * (z / 100)) cosmo gtt < 0) := by
  intro n
  induction n with
  | zero => simp [dm_loop]
  | succ n ih =>
    cases h : dm_loop z cosmo gtt n with
    | none =>
      obtain ⟨i, hi, hPi⟩ := ih.mp h
      simp only [dm_loop, h]
      exact ⟨fun _ => ⟨i, Nat.lt_succ_of_lt hi, hPi⟩, fun _ => trivial⟩
    | some acc =>
      by_cases hH : gtt_hubble_at_z (((n : ℝ) + 0.5) * (z / 100)) cosmo gtt < 0
      · simp only [dm_loop, h, if_pos hH]
        exact ⟨fun _ => ⟨n, Nat.lt_succ_self n, hH⟩, fun _ => trivial⟩
      · simp only [dm_loop, h, if_neg hH]
        constructor
        · intro hcon
          exact absurd hcon (Option.some_ne_none _)
        · rintro ⟨i, hi, hPi⟩
          exfalso
          rcases Nat.lt_succ_iff_lt_or_eq.mp hi with hi' | rfl
          · have hnone := ih.mpr ⟨i, hi', hPi⟩
            rw [h] at hnone
            exact Option.some_ne_none acc hnone
          · exact hH hPi

/-- C4 (amended): for every redshift `z` and every parameter set, the
distance-modulus integration fails — `gtt_distance_modulus` returns its
failure value `-1` — exactly when some of the 100 midpoint samples has a
strictly negative Hubble value `H(z_i) < 0` (equivalently, the Friedmann
evaluation failed there); otherwise it returns
`μ = 5·log10(c·(1+z)·∫ / Mpc) + 25` over the accumulated midpoint-rule
integral.  At a sample with `H(z_i) = 0` the code does not fail but
divides by zero. -/
theorem claim_C4_amended :
    ∀ (z : ℝ) (cosmo : cosmology_params) (gtt : gtt_params),
      (dm_loop z cosmo gtt 100 = none ↔
        ∃ i : ℕ, i < 100 ∧
          gtt_hubble_at_z (((i : ℝ) + 0.5) * (z / 100)) cosmo gtt < 0) ∧
      gtt_distance_modulus z cosmo gtt =
        Option.elim (dm_loop z cosmo gtt 100) (-1.0)
          (fun integral => 5.0 * Real.logb 10
            (299792458.0 * (1.0 + z) * integral / 3.08567758e22) + 25.0) := by
  intro z cosmo gtt
  refine ⟨dm_loop_none_iff z cosmo gtt 100, ?_⟩
  show (match dm_loop z cosmo gtt 100 with
    | none => (-1.0 : ℝ)
    | some integral =>
      let c : ℝ := 299792458.0
      let d_L := c * (1.0 + z) * integral
      let d_L_Mpc := d_L / 3.08567758e22
      5.0 * Real.logb 10 d_L_Mpc + 25.0) = _
  cases dm_loop z cosmo gtt 100 with
  | none => rfl
  | some I => rfl

/-- Witness for the amended C7 at the concrete parameter set `pC7`. -/
theorem claim_C7_witness :
    StrictMono (fun chi => gtt_fractal_dimension chi pC7) ∧
    Filter.Tendsto (fun chi => gtt_fractal_dimension chi pC7) Filter.atTop
      (nhds pC7.D_asymptotic) ∧
    gtt_fractal_dimension 0 pC7 = 2 ∧
    Filter.Tendsto (fun chi => gtt_fractal_dimension chi pC7) Filter.atBot
      Filter.atBot :=
  claim_C7_amended pC7 (by norm_num [pC7]) (by norm_num [pC7])

end GTT
